import Mathlib

/-!
Verification of the Openlyst-more-builds repository's resolution and
normalization engine against its natural-language specification.

The Python sources (build.py, build_altstore_repo.py, build_fdroid_repo.py,
build_homebrew_tap.py, build_winget_repo.py) are shallowly embedded below.
Semi-structured JSON-like records are modelled by the `PyVal` type; Python
exceptions are modelled by `Except PyErr`; Python truthiness, the `in`
operator, `dict.get`, subscription, `str.strip`, `str.title`, `str.lower`
and `str.split` are modelled by the helpers in the first section, restricted
to ASCII character data.
-/

set_option autoImplicit false

namespace Openlyst

/-- Model of a Python value as it appears in the JSON records processed by
the builders: None, bool, int, str, list, dict (a dict is an association
list of string keys in insertion order, as all dict keys in this code base
are strings). -/
inductive PyVal where
  | pyNone : PyVal
  | pyBool : Bool → PyVal
  | pyInt : Int → PyVal
  | pyStr : String → PyVal
  | pyList : List PyVal → PyVal
  | pyDict : List (String × PyVal) → PyVal

/-- Python exceptions that the embedded code can raise. -/
inductive PyErr where
  | typeError
  | attributeError
  | keyError
  | indexError
  | valueError
deriving Repr, DecidableEq

mutual

/-- Structural equality on `PyVal`, modelling Python `==` on these values. -/
def PyVal.beq : PyVal → PyVal → Bool
  | .pyNone, .pyNone => true
  | .pyBool a, .pyBool b => a == b
  | .pyInt a, .pyInt b => a == b
  | .pyStr a, .pyStr b => a == b
  | .pyList xs, .pyList ys => beqPyList xs ys
  | .pyDict xs, .pyDict ys => beqPyDict xs ys
  | _, _ => false

/-- Elementwise equality of lists of `PyVal`. -/
def beqPyList : List PyVal → List PyVal → Bool
  | [], [] => true
  | x :: xs, y :: ys => PyVal.beq x y && beqPyList xs ys
  | _, _ => false

/-- Entrywise equality of association lists of `PyVal`. -/
def beqPyDict : List (String × PyVal) → List (String × PyVal) → Bool
  | [], [] => true
  | (k₁, v₁) :: xs, (k₂, v₂) :: ys => k₁ == k₂ && PyVal.beq v₁ v₂ && beqPyDict xs ys
  | _, _ => false

end

instance : BEq PyVal := ⟨PyVal.beq⟩

/-- First-match association-list lookup: models Python dict subscription /
`dict.get` on the insertion-ordered entry list. -/
def pyLookup : List (String × PyVal) → String → Option PyVal
  | [], _ => none
  | (k, v) :: rest, key => if k = key then some v else pyLookup rest key

/-- Python truthiness of a value (`bool(v)`). -/
def PyVal.truthy : PyVal → Bool
  | .pyNone => false
  | .pyBool b => b
  | .pyInt n => n != 0
  | .pyStr s => s != ""
  | .pyList xs => !xs.isEmpty
  | .pyDict xs => !xs.isEmpty

/-- Model of `v.get(key, default)`: raises AttributeError when `v` is not a
dict (only dicts among these values have a `get` method). -/
def pyGet (v : PyVal) (key : String) (default : PyVal) : Except PyErr PyVal :=
  match v with
  | .pyDict xs => .ok ((pyLookup xs key).getD default)
  | _ => .error .attributeError

/-- Model of subscription `v[key]` with a string key: dict lookup (KeyError
when missing); TypeError on strings, lists and the other values, exactly as
Python raises for string-subscripted strings/lists. -/
def pyGetItem (v : PyVal) (key : String) : Except PyErr PyVal :=
  match v with
  | .pyDict xs =>
    match pyLookup xs key with
    | some x => .ok x
    | none => .error .keyError
  | _ => .error .typeError

/-- Does `needle` occur as a leading run of `hay`? -/
def charsLeads : List Char → List Char → Bool
  | [], _ => true
  | _ :: _, [] => false
  | a :: as, b :: bs => a == b && charsLeads as bs

/-- Does `needle` occur contiguously anywhere within `hay`? -/
def charsWithin : List Char → List Char → Bool
  | ns, [] => ns.isEmpty
  | ns, h :: t => charsLeads ns (h :: t) || charsWithin ns t

/-- Model of Python `s.startswith(p)`. -/
def pyStartsWith (s p : String) : Bool := charsLeads p.data s.data

/-- Model of Python substring containment `needle in hay` for strings. -/
def pyStrContains (hay needle : String) : Bool := charsWithin needle.data hay.data

/-- Model of the Python `in` operator `needle in hay` for the container
shapes that occur in the builders: key membership for dicts, elementwise
`==` membership for lists, substring test for strings, TypeError otherwise. -/
def pyIn (needle : PyVal) (hay : PyVal) : Except PyErr Bool :=
  match hay with
  | .pyDict xs =>
    match needle with
    | .pyStr k => .ok (pyLookup xs k).isSome
    | _ => .ok false
  | .pyList xs => .ok (xs.contains needle)
  | .pyStr s =>
    match needle with
    | .pyStr t => .ok (pyStrContains s t)
    | _ => .error .typeError
  | _ => .error .typeError

/-- Python whitespace for `str.strip` (ASCII fragment). -/
def pyIsSpace (c : Char) : Bool :=
  c == ' ' || c == '\t' || c == '\n' || c == '\r' || c == Char.ofNat 11 || c == Char.ofNat 12

/-- Model of Python `s.strip()`. -/
def pyStrip (s : String) : String :=
  ⟨((s.data.dropWhile pyIsSpace).reverse.dropWhile pyIsSpace).reverse⟩

/-- Title-casing pass of Python `s.title()` over ASCII character data: a
cased (here: ASCII-alphabetic) character is uppercased after an uncased
character and lowercased after a cased one; uncased characters pass through
and reset the state. -/
def pyTitleAux : Bool → List Char → List Char
  | _, [] => []
  | prevCased, c :: cs =>
    if c.isAlpha then
      (if prevCased then c.toLower else c.toUpper) :: pyTitleAux true cs
    else
      c :: pyTitleAux false cs

/-- Model of Python `s.title()`. -/
def pyTitle (s : String) : String := ⟨pyTitleAux false s.data⟩

/-- Model of Python `s.lower()` over ASCII character data. -/
def pyLower (s : String) : String := ⟨s.data.map Char.toLower⟩

/-- Model of Python `s.split('.')`: splitting the empty string yields one
empty field, and every separator contributes a field boundary. -/
def splitDots : List Char → List String
  | [] => [""]
  | c :: cs =>
    let rest := splitDots cs
    if c = '.' then "" :: rest
    else
      match rest with
      | h :: t => (⟨c :: h.data⟩ : String) :: t
      | [] => [⟨[c]⟩]

/-- Model of Python `'.'.join(parts)`. -/
def joinDots : List String → String
  | [] => ""
  | [s] => s
  | s :: rest => s ++ "." ++ joinDots rest

/-- Model of Python `int(p)` on a string of decimal digits (the only shape
it is applied to in `version_to_code`, where parts are filtered to digits). -/
def digitsToNatAux (acc : Nat) : List Char → Nat
  | [] => acc
  | c :: cs => digitsToNatAux (acc * 10 + (c.toNat - 48)) cs

/-- Model of `int(parts[i]) if parts[i] else 0` from `version_to_code`. -/
def pyIntOr0 (p : String) : Nat :=
  if p = "" then 0 else digitsToNatAux 0 p.data

/-!
## Version code deriver

`FDroidMetadataGenerator.version_to_code` (build_fdroid_repo.py, lines
252-270): strip all characters other than digits and dots, split on dots,
pad on the right with zero components to at least three, and combine the
first three components as major*10000 + minor*100 + patch.  For a string
argument no step of that pipeline can raise, so the bare `except: return 1`
branch is unreachable and is not part of the string-input semantics
embedded here.
-/

/-- Embedding of `version_to_code` on string inputs. -/
def version_to_code (version_str : String) : Nat :=
  let clean_version : List Char := version_str.data.filter (fun c => c.isDigit || c == '.')
  let parts : List String := splitDots clean_version
  let parts3 : List String := parts ++ List.replicate (3 - parts.length) "0"
  pyIntOr0 (parts3.getD 0 "0") * 10000 + pyIntOr0 (parts3.getD 1 "0") * 100
    + pyIntOr0 (parts3.getD 2 "0")

/-- The (major, minor, patch) numeric components that `version_to_code`
parses out of a version string, before they are combined. -/
def versionComponents (version_str : String) : Nat × Nat × Nat :=
  let clean_version : List Char := version_str.data.filter (fun c => c.isDigit || c == '.')
  let parts : List String := splitDots clean_version
  let parts3 : List String := parts ++ List.replicate (3 - parts.length) "0"
  (pyIntOr0 (parts3.getD 0 "0"), pyIntOr0 (parts3.getD 1 "0"), pyIntOr0 (parts3.getD 2 "0"))

/-!
## Identifier sanitizers
-/

/-- Shared core of the class-style sanitizers: `re.sub(r'[^a-zA-Z0-9]', '',
name.title())` as character data. -/
def titleAlnum (name : String) : List Char :=
  (pyTitleAux false name.data).filter Char.isAlphanum

/-- Embedding of `sanitize_name` (build.py, lines 152-173). -/
def sanitize_name (name : String) (style : String) : String :=
  if style = "class" then
    match titleAlnum name with
    | [] => ""
    | c :: cs => if c.isAlpha then (⟨c :: cs⟩ : String) else ⟨'A' :: 'p' :: 'p' :: c :: cs⟩
  else if style = "package" then
    ⟨(pyLower name).data.filter (fun c => c.isAlphanum || c == '.')⟩
  else if style = "filename" then
    ⟨((pyLower name).data.map (fun c => if c = ' ' then '-' else c)).filter
      (fun c => c.isAlphanum || c == '_' || c == '-')⟩
  else name

/-- Embedding of `HomebrewFormulaGenerator.sanitize_class_name`
(build_homebrew_tap.py, lines 115-122).  `sanitized[0]` is evaluated
without first checking that `sanitized` is non-empty, so a name that strips
to the empty string raises IndexError. -/
def sanitize_class_name (name : String) : Except PyErr String :=
  match titleAlnum name with
  | [] => .error .indexError
  | c :: cs => .ok (if c.isAlpha then (⟨c :: cs⟩ : String) else ⟨'A' :: 'p' :: 'p' :: c :: cs⟩)

/-- Embedding of `WingetManifestGenerator.sanitize_package_id`
(build_winget_repo.py, lines 97-102). -/
def sanitize_package_id (name : String) (publisher : String) : String :=
  ⟨(publisher.data.filter Char.isAlphanum) ++ '.' :: titleAlnum name⟩

/-- Pure directory-naming part of
`WingetManifestGenerator.create_manifest_directory` (build_winget_repo.py,
lines 221-231): split the package identifier on dots into a publisher
component and a package-name component. -/
def manifest_dir_parts (package_id : String) : String × String :=
  let parts := splitDots package_id.data
  let publisher := if parts.length > 1 then parts.getD 0 "" else "OpenLyst"
  let package_name := if parts.length > 1 then joinDots (parts.drop 1) else parts.getD 0 ""
  (publisher, package_name)

/-!
## Download resolvers
-/

/-- First probe of `extract_ipa_url`: `downloads["iOS"]` as a direct
string that is non-empty after stripping. -/
def ipaPrimary (v : List (String × PyVal)) : Option String :=
  match pyLookup v "downloads" with
  | some (.pyDict dls) =>
    match pyLookup dls "iOS" with
    | some (.pyStr s) => if pyStrip s = "" then none else some (pyStrip s)
    | _ => none
  | _ => none

/-- Second probe of `extract_ipa_url`: `platformInstall["iOS"]` as a
stripped-non-empty string that starts with `http`. -/
def ipaInstall (v : List (String × PyVal)) : Option String :=
  match pyLookup v "platformInstall" with
  | some (.pyDict pins) =>
    match pyLookup pins "iOS" with
    | some (.pyStr s) =>
      if pyStrip s ≠ "" ∧ pyStartsWith s "http" = true then some (pyStrip s) else none
    | _ => none
  | _ => none

/-- Last probe of `extract_ipa_url`: a truthy string `downloadURL` field
whose stripped form starts with `http`. -/
def ipaDownloadURL (v : List (String × PyVal)) : Option String :=
  match pyLookup v "downloadURL" with
  | some (.pyStr s) =>
    if s ≠ "" ∧ pyStartsWith (pyStrip s) "http" = true then some (pyStrip s) else none
  | _ => none

/-- Embedding of `AltStoreRepoBuilder.extract_ipa_url`
(build_altstore_repo.py, lines 118-143); `AltStoreBuilder.extract_ipa_url`
in build.py (lines 187-211) is line-for-line identical.  The three probes
run in order and the first hit wins; a non-dict version record yields
`none`. -/
def extract_ipa_url (version : PyVal) : Option String :=
  match version with
  | .pyDict v =>
    match ipaPrimary v with
    | some u => some u
    | none =>
      match ipaInstall v with
      | some u => some u
      | none => ipaDownloadURL v
  | _ => none

/-- The key probe `if key in d and d[key]: return d[key]` iterated over an
ordered key list, for a value already known to be a dict (used by
`extract_apk_url` and by the nested architecture probes). -/
def dictKeyProbe (xs : List (String × PyVal)) : List String → Option PyVal
  | [] => none
  | k :: rest =>
    match pyLookup xs k with
    | some v => if v.truthy then some v else dictKeyProbe xs rest
    | none => dictKeyProbe xs rest

/-- First probe of `extract_apk_url`: `downloads["Android"]` as a direct
stripped-non-empty string, or as a dict probed with the key order apk,
universal, arm64, arm, x86_64, x86. -/
def apkFromDownloads (v : List (String × PyVal)) : Option PyVal :=
  match pyLookup v "downloads" with
  | some (.pyDict dls) =>
    match pyLookup dls "Android" with
    | some (.pyStr s) => if pyStrip s = "" then none else some (.pyStr (pyStrip s))
    | some (.pyDict ad) => dictKeyProbe ad ["apk", "universal", "arm64", "arm", "x86_64", "x86"]
    | _ => none
  | _ => none

/-- Embedding of `FDroidBuilder.extract_apk_url` (build.py, lines 444-464):
probe `downloads["Android"]` first, then a top-level `downloadURL` whose
stripped form starts with `http`. -/
def extract_apk_url (version : PyVal) : Option PyVal :=
  match version with
  | .pyDict v =>
    match apkFromDownloads v with
    | some u => some u
    | none =>
      match pyLookup v "downloadURL" with
      | some (.pyStr s) =>
        if s ≠ "" ∧ pyStartsWith (pyStrip s) "http" = true then some (.pyStr (pyStrip s)) else none
      | _ => none
  | _ => none

/-- Embedding of `FDroidMetadataGenerator.get_android_download_url`
(build_fdroid_repo.py, lines 108-120).  Note that when
`downloads["Android"]` is a string, `'apk' in android_downloads` is a
substring test and `android_downloads['apk']` then raises TypeError. -/
def get_android_download_url (version : PyVal) : Except PyErr (Option PyVal) :=
  match pyGet version "downloads" (.pyDict []) with
  | .error e => .error e
  | .ok downloads =>
    match pyGet downloads "Android" (.pyDict []) with
    | .error e => .error e
    | .ok ad =>
      if ad.truthy then
        match pyIn (.pyStr "apk") ad with
        | .error e => .error e
        | .ok true =>
          match pyGetItem ad "apk" with
          | .error e => .error e
          | .ok v => if v.truthy then .ok (some v) else .ok none
        | .ok false => .ok none
      else .ok none

/-- The macOS architecture loop of `get_download_url_for_platform`:
`for arch in [...]: if arch in platform_downloads and
platform_downloads[arch]: return platform_downloads[arch]`, where
`platform_downloads` has not been checked to be a dict, so `in` and
subscription can raise. -/
def probeArchList (pd : PyVal) : List String → Except PyErr (Option PyVal)
  | [] => .ok none
  | arch :: rest =>
    match pyIn (.pyStr arch) pd with
    | .error e => .error e
    | .ok false => probeArchList pd rest
    | .ok true =>
      match pyGetItem pd arch with
      | .error e => .error e
      | .ok v => if v.truthy then .ok (some v) else probeArchList pd rest

/-- The Linux/Windows package-type loop of the Homebrew resolvers: probe an
ordered package-type list; a dict value is probed with the architecture
order x86_64, arm64; a truthy string value is accepted directly. -/
def hbPkgTypes (pd : PyVal) : List String → Except PyErr (Option PyVal)
  | [] => .ok none
  | pt :: rest =>
    match pyIn (.pyStr pt) pd with
    | .error e => .error e
    | .ok false => hbPkgTypes pd rest
    | .ok true =>
      match pyGetItem pd pt with
      | .error e => .error e
      | .ok (.pyDict inner) =>
        match dictKeyProbe inner ["x86_64", "arm64"] with
        | some v => .ok (some v)
        | none => hbPkgTypes pd rest
      | .ok (.pyStr s) => if s = "" then hbPkgTypes pd rest else .ok (some (.pyStr s))
      | .ok _ => hbPkgTypes pd rest

/-- Inner level of the fallback scan: accept the first string value that
starts with `http` among the entries of a nested dict. -/
def fallbackInner : List (String × PyVal) → Option PyVal
  | [] => none
  | (_, v) :: rest =>
    match v with
    | .pyStr s => if pyStartsWith s "http" then some (.pyStr s) else fallbackInner rest
    | _ => fallbackInner rest

/-- The unordered fallback scan of the Homebrew resolvers: walk the
platform subtree in insertion order, descending one level into dict values,
and accept the first string leaf that starts with `http`. -/
def fallbackScan : List (String × PyVal) → Option PyVal
  | [] => none
  | (_, v) :: rest =>
    match v with
    | .pyDict inner =>
      match fallbackInner inner with
      | some u => some u
      | none => fallbackScan rest
    | .pyStr s => if pyStartsWith s "http" then some (.pyStr s) else fallbackScan rest
    | _ => fallbackScan rest

/-- Embedding of `HomebrewFormulaGenerator.get_download_url_for_platform`
(build_homebrew_tap.py, lines 124-173): macOS prefers universal, arm64,
x86_64; Linux prefers appimage, zip, deb, rpm; Windows prefers zip, exe,
msi; any miss falls back to the subtree scan, which requires the platform
entry to be a dict (`.items()`). -/
def hb_get_download_url_for_platform (version : PyVal) (platform : String) :
    Except PyErr (Option PyVal) :=
  match pyGet version "downloads" (.pyDict []) with
  | .error e => .error e
  | .ok downloads =>
    match pyGet downloads platform (.pyDict []) with
    | .error e => .error e
    | .ok pd =>
      if pd.truthy then
        match
          (if platform = "macOS" then probeArchList pd ["universal", "arm64", "x86_64"]
           else if platform = "Linux" then hbPkgTypes pd ["appimage", "zip", "deb", "rpm"]
           else if platform = "Windows" then hbPkgTypes pd ["zip", "exe", "msi"]
           else .ok none) with
        | .error e => .error e
        | .ok (some v) => .ok (some v)
        | .ok none =>
          match pd with
          | .pyDict xs => .ok (fallbackScan xs)
          | _ => .error .attributeError
      else .ok none

/-- Embedding of `HomebrewBuilder.get_download_url_for_platform` (build.py,
lines 683-716), identical to the tap builder's resolver except that it has
no Windows branch. -/
def build_get_download_url_for_platform (version : PyVal) (platform : String) :
    Except PyErr (Option PyVal) :=
  match pyGet version "downloads" (.pyDict []) with
  | .error e => .error e
  | .ok downloads =>
    match pyGet downloads platform (.pyDict []) with
    | .error e => .error e
    | .ok pd =>
      if pd.truthy then
        match
          (if platform = "macOS" then probeArchList pd ["universal", "arm64", "x86_64"]
           else if platform = "Linux" then hbPkgTypes pd ["appimage", "zip", "deb", "rpm"]
           else .ok none) with
        | .error e => .error e
        | .ok (some v) => .ok (some v)
        | .ok none =>
          match pd with
          | .pyDict xs => .ok (fallbackScan xs)
          | _ => .error .attributeError
      else .ok none

/-- The Windows package-type loop of the Winget resolver: like the Homebrew
loop, but a string value is accepted only when it starts with `http`. -/
def wingetPkgTypes (wd : PyVal) : List String → Except PyErr (Option PyVal)
  | [] => .ok none
  | pt :: rest =>
    match pyIn (.pyStr pt) wd with
    | .error e => .error e
    | .ok false => wingetPkgTypes wd rest
    | .ok true =>
      match pyGetItem wd pt with
      | .error e => .error e
      | .ok (.pyDict inner) =>
        match dictKeyProbe inner ["x86_64", "arm64"] with
        | some v => .ok (some v)
        | none => wingetPkgTypes wd rest
      | .ok (.pyStr s) =>
        if pyStartsWith s "http" then .ok (some (.pyStr s)) else wingetPkgTypes wd rest
      | .ok _ => wingetPkgTypes wd rest

/-- Embedding of `WingetManifestGenerator.get_windows_download_url`
(build_winget_repo.py, lines 104-124): probe package types exe, msi, msix,
zip; no fallback scan. -/
def get_windows_download_url (version : PyVal) : Except PyErr (Option PyVal) :=
  match pyGet version "downloads" (.pyDict []) with
  | .error e => .error e
  | .ok downloads =>
    match pyGet downloads "Windows" (.pyDict []) with
    | .error e => .error e
    | .ok wd =>
      if wd.truthy then wingetPkgTypes wd ["exe", "msi", "msix", "zip"]
      else .ok none

/-!
## Screenshot processing
-/

/-- The accumulation loop of `_process_screenshots`: keep strings as they
are and, for dict entries, the value at `imageURL` when that key is
present. -/
def processLoop : List PyVal → List PyVal
  | [] => []
  | shot :: rest =>
    match shot with
    | .pyStr s => .pyStr s :: processLoop rest
    | .pyDict d =>
      match pyLookup d "imageURL" with
      | some v => v :: processLoop rest
      | none => processLoop rest
    | _ => processLoop rest

/-- Embedding of `AltStoreRepoBuilder._process_screenshots`
(build_altstore_repo.py, lines 238-250); `AltStoreBuilder._process_screenshots`
in build.py (lines 286-295) is semantically identical.  A non-list input
yields the empty list; otherwise the loop output is truncated to ten
entries. -/
def process_screenshots (screenshots : PyVal) : List PyVal :=
  match screenshots with
  | .pyList xs => (processLoop xs).take 10
  | _ => []

/-- Selector describing which screenshot entries are kept: strings, and
dict entries carrying an `imageURL` key (whose value is taken). -/
def keepShot : PyVal → Option PyVal
  | .pyStr s => some (.pyStr s)
  | .pyDict d => pyLookup d "imageURL"
  | _ => none

/-!
## Winget per-application emission and batch loop
-/

/-- The body of the `try` block of
`WingetManifestGenerator.generate_manifests` (build_winget_repo.py, lines
248-276), with the file writes (which do not fail in this model) elided:
look up the app name (KeyError when absent, AttributeError from `.title()`
when not a string), look up the version string of the latest version,
resolve the Windows download URL and raise ValueError when it is absent,
and raise from `determine_installer_type` when the resolved value is not a
string.  Any error escaping this block is caught by the surrounding
`except` clauses. -/
def winget_try_body (app latest : PyVal) : Except PyErr Bool :=
  match pyGetItem app "name" with
  | .error e => .error e
  | .ok (.pyStr name) =>
    let _package_id := sanitize_package_id name "OpenLyst"
    match pyGetItem latest "version" with
    | .error e => .error e
    | .ok (.pyStr _version_str) =>
      match get_windows_download_url latest with
      | .error e => .error e
      | .ok none => .error .valueError
      | .ok (some (.pyStr _url)) => .ok true
      | .ok (some _) => .error .typeError
    | .ok _ => .error .typeError
  | .ok _ => .error .attributeError

/-- Embedding of `WingetManifestGenerator.generate_manifests`
(build_winget_repo.py, lines 233-283).  The platform check
`latest_version.get('platforms', [])` runs before the `try` block, so the
errors it raises (for example AttributeError when the first version record
is not a dict) escape the function; errors raised inside the `try` block
are caught and turn into a `False` result. -/
def generate_manifests (app : PyVal) (versions : List PyVal) : Except PyErr Bool :=
  match versions with
  | [] => .ok false
  | latest :: _ =>
    match pyGet latest "platforms" (.pyList []) with
    | .error e => .error e
    | .ok platforms =>
      match pyIn (.pyStr "Windows") platforms with
      | .error e => .error e
      | .ok false => .ok false
      | .ok true =>
        match winget_try_body app latest with
        | .error _ => .ok false
        | .ok b => .ok b

/-- The per-application loop of `main` in build_winget_repo.py (lines
314-331), with each application paired with the version list the client
returned for it: count generated and failed applications; an exception
escaping `generate_manifests` is not caught anywhere in `main` and aborts
the whole loop. -/
def winget_main_loop :
    List (PyVal × List PyVal) → Nat → Nat → Except PyErr (Nat × Nat)
  | [], generated_count, failed_count => .ok (generated_count, failed_count)
  | (app, versions) :: rest, generated_count, failed_count =>
    match pyGet app "slug" .pyNone with
    | .error e => .error e
    | .ok slug =>
      if slug.truthy then
        match generate_manifests app versions with
        | .error e => .error e
        | .ok true => winget_main_loop rest (generated_count + 1) failed_count
        | .ok false => winget_main_loop rest generated_count (failed_count + 1)
      else winget_main_loop rest generated_count (failed_count + 1)

/-!
## Standalone-script exit codes
-/

/-- Exit-code logic of `main` in build_fdroid_repo.py (lines 347-408),
abstracted over the per-application outcomes (one Bool per fetched app:
did metadata generation succeed): an empty app list exits 1 immediately;
otherwise exit 1 exactly when no app generated, and 0 otherwise (also when
some apps failed). -/
def fdroid_main_exit_code (outcomes : List Bool) : Nat :=
  if outcomes.isEmpty then 1
  else
    let generated_count := outcomes.count true
    let failed_count := outcomes.count false
    if generated_count = 0 then 1
    else if failed_count > 0 then 0
    else 0

/-- Exit-code logic of `main` in build_homebrew_tap.py (lines 377-428),
identical in structure to the F-Droid script's. -/
def homebrew_main_exit_code (outcomes : List Bool) : Nat :=
  if outcomes.isEmpty then 1
  else
    let generated_count := outcomes.count true
    let failed_count := outcomes.count false
    if generated_count = 0 then 1
    else if failed_count > 0 then 0
    else 0

/-- The shape claimed by the specification for a resolver result: either
absence, or a non-empty string URL.  A raised exception or a non-string
value falls outside this shape. -/
def resolverResultOk : Except PyErr (Option PyVal) → Bool
  | .ok none => true
  | .ok (some (.pyStr s)) => !(s == "")
  | _ => false

/-!
## Helper lemmas
-/

theorem mk_ne_empty (c : Char) (cs : List Char) : (⟨c :: cs⟩ : String) ≠ "" := by
  intro h
  have hdata : (⟨c :: cs⟩ : String).data = ("" : String).data := congrArg String.data h
  have hempty : ("" : String).data = [] := rfl
  rw [hempty] at hdata
  exact List.cons_ne_nil c cs hdata

theorem processLoop_eq_filterMap (xs : List PyVal) : processLoop xs = xs.filterMap keepShot := by
  induction xs with
  | nil => rfl
  | cons hd t ih =>
    cases hd with
    | pyDict d =>
      cases hv : pyLookup d "imageURL" <;> simp [processLoop, keepShot, hv, ih]
    | pyNone => simp [processLoop, keepShot, ih]
    | pyBool b => simp [processLoop, keepShot, ih]
    | pyInt n => simp [processLoop, keepShot, ih]
    | pyStr s => simp [processLoop, keepShot, ih]
    | pyList l => simp [processLoop, keepShot, ih]

theorem version_to_code_eq_components (s : String) :
    version_to_code s =
      (versionComponents s).1 * 10000 + (versionComponents s).2.1 * 100
        + (versionComponents s).2.2 := rfl

theorem packLt {M₁ m₁ p₁ M₂ m₂ p₂ : Nat} (hm : m₁ < 100) (hp : p₁ < 100)
    (hlex : M₁ < M₂ ∨ (M₁ = M₂ ∧ m₁ < m₂) ∨ (M₁ = M₂ ∧ m₁ = m₂ ∧ p₁ < p₂)) :
    M₁ * 10000 + m₁ * 100 + p₁ < M₂ * 10000 + m₂ * 100 + p₂ := by
  rcases hlex with h | ⟨h₁, h₂⟩ | ⟨h₁, h₂, h₃⟩ <;> omega

theorem sanitize_name_class_eq (name : String) :
    sanitize_name name "class"
      = (match titleAlnum name with
         | [] => ""
         | c :: cs =>
           if c.isAlpha then (⟨c :: cs⟩ : String) else ⟨'A' :: 'p' :: 'p' :: c :: cs⟩) := rfl

theorem sanitize_class_name_eq (name : String) :
    sanitize_class_name name
      = (match titleAlnum name with
         | [] => Except.error PyErr.indexError
         | c :: cs =>
           Except.ok (if c.isAlpha then (⟨c :: cs⟩ : String)
             else ⟨'A' :: 'p' :: 'p' :: c :: cs⟩)) := rfl

theorem truthy_pyStr_of_ne {s : String} (h : s ≠ "") : (PyVal.pyStr s).truthy = true := by
  simp [PyVal.truthy, h]

theorem pyStartsWith_http_ne (s : String) (h : pyStartsWith s "http" = true) : s ≠ "" := by
  intro he
  rw [he] at h
  exact absurd h (by decide)

theorem dictKeyProbe_truthy :
    ∀ (keys : List String) (xs : List (String × PyVal)) (v : PyVal),
      dictKeyProbe xs keys = some v → v.truthy = true := by
  intro keys
  induction keys with
  | nil => intro xs v h; simp [dictKeyProbe] at h
  | cons k rest ih =>
    intro xs v h
    simp only [dictKeyProbe] at h
    split at h
    · split at h
      · obtain rfl := Option.some.inj h
        assumption
      · exact ih xs v h
    · exact ih xs v h

theorem probeArchList_truthy :
    ∀ (keys : List String) (pd : PyVal) (v : PyVal),
      probeArchList pd keys = .ok (some v) → v.truthy = true := by
  intro keys
  induction keys with
  | nil => intro pd v h; simp [probeArchList] at h
  | cons k rest ih =>
    intro pd v h
    simp only [probeArchList] at h
    split at h
    · exact Except.noConfusion h
    · exact ih pd v h
    · split at h
      · exact Except.noConfusion h
      · split at h
        · obtain rfl := Option.some.inj (Except.ok.inj h)
          assumption
        · exact ih pd v h

theorem hbPkgTypes_truthy :
    ∀ (pts : List String) (pd : PyVal) (v : PyVal),
      hbPkgTypes pd pts = .ok (some v) → v.truthy = true := by
  intro pts
  induction pts with
  | nil => intro pd v h; simp [hbPkgTypes] at h
  | cons pt rest ih =>
    intro pd v h
    simp only [hbPkgTypes] at h
    split at h
    · exact Except.noConfusion h
    · exact ih pd v h
    · split at h
      · exact Except.noConfusion h
      · split at h
        · obtain rfl := Option.some.inj (Except.ok.inj h)
          exact dictKeyProbe_truthy _ _ _ (by assumption)
        · exact ih pd v h
      · split at h
        · exact ih pd v h
        · obtain rfl := Option.some.inj (Except.ok.inj h)
          exact truthy_pyStr_of_ne (by assumption)
      · exact ih pd v h

theorem wingetPkgTypes_truthy :
    ∀ (pts : List String) (wd : PyVal) (v : PyVal),
      wingetPkgTypes wd pts = .ok (some v) → v.truthy = true := by
  intro pts
  induction pts with
  | nil => intro wd v h; simp [wingetPkgTypes] at h
  | cons pt rest ih =>
    intro wd v h
    simp only [wingetPkgTypes] at h
    split at h
    · exact Except.noConfusion h
    · exact ih wd v h
    · split at h
      · exact Except.noConfusion h
      · split at h
        · obtain rfl := Option.some.inj (Except.ok.inj h)
          exact dictKeyProbe_truthy _ _ _ (by assumption)
        · exact ih wd v h
      · split at h
        · obtain rfl := Option.some.inj (Except.ok.inj h)
          exact truthy_pyStr_of_ne (pyStartsWith_http_ne _ (by assumption))
        · exact ih wd v h
      · exact ih wd v h

theorem fallbackInner_http :
    ∀ (xs : List (String × PyVal)) (v : PyVal),
      fallbackInner xs = some v → ∃ s, v = .pyStr s ∧ pyStartsWith s "http" = true := by
  intro xs
  induction xs with
  | nil => intro v h; simp [fallbackInner] at h
  | cons hd rest ih =>
    intro v h
    obtain ⟨k, w⟩ := hd
    simp only [fallbackInner] at h
    split at h
    · split at h
      · obtain rfl := Option.some.inj h
        exact ⟨_, rfl, by assumption⟩
      · exact ih v h
    · exact ih v h

theorem fallbackScan_truthy :
    ∀ (xs : List (String × PyVal)) (v : PyVal),
      fallbackScan xs = some v → v.truthy = true := by
  intro xs
  induction xs with
  | nil => intro v h; simp [fallbackScan] at h
  | cons hd rest ih =>
    intro v h
    obtain ⟨k, w⟩ := hd
    simp only [fallbackScan] at h
    split at h
    · split at h
      · obtain rfl := Option.some.inj h
        obtain ⟨s, rfl, hs⟩ := fallbackInner_http _ _ (by assumption)
        exact truthy_pyStr_of_ne (pyStartsWith_http_ne _ hs)
      · exact ih v h
    · split at h
      · obtain rfl := Option.some.inj h
        exact truthy_pyStr_of_ne (pyStartsWith_http_ne _ (by assumption))
      · exact ih v h
    · exact ih v h

theorem hb_resolver_truthy (v : PyVal) (p : String) (u : PyVal)
    (h : hb_get_download_url_for_platform v p = .ok (some u)) : u.truthy = true := by
  unfold hb_get_download_url_for_platform at h
  split at h
  · exact Except.noConfusion h
  · split at h
    · exact Except.noConfusion h
    · split at h
      · split at h
        · exact Except.noConfusion h
        · obtain rfl := Option.some.inj (Except.ok.inj h)
          rename_i heq
          split at heq
          · exact probeArchList_truthy _ _ _ heq
          · split at heq
            · exact hbPkgTypes_truthy _ _ _ heq
            · split at heq
              · exact hbPkgTypes_truthy _ _ _ heq
              · exact Option.noConfusion (Except.ok.inj heq)
        · split at h
          · exact fallbackScan_truthy _ _ (Except.ok.inj h)
          · exact Except.noConfusion h
      · exact Option.noConfusion (Except.ok.inj h)

theorem build_resolver_truthy (v : PyVal) (p : String) (u : PyVal)
    (h : build_get_download_url_for_platform v p = .ok (some u)) : u.truthy = true := by
  unfold build_get_download_url_for_platform at h
  split at h
  · exact Except.noConfusion h
  · split at h
    · exact Except.noConfusion h
    · split at h
      · split at h
        · exact Except.noConfusion h
        · obtain rfl := Option.some.inj (Except.ok.inj h)
          rename_i heq
          split at heq
          · exact probeArchList_truthy _ _ _ heq
          · split at heq
            · exact hbPkgTypes_truthy _ _ _ heq
            · exact Option.noConfusion (Except.ok.inj heq)
        · split at h
          · exact fallbackScan_truthy _ _ (Except.ok.inj h)
          · exact Except.noConfusion h
      · exact Option.noConfusion (Except.ok.inj h)

theorem winget_resolver_truthy (v : PyVal) (u : PyVal)
    (h : get_windows_download_url v = .ok (some u)) : u.truthy = true := by
  unfold get_windows_download_url at h
  split at h
  · exact Except.noConfusion h
  · split at h
    · exact Except.noConfusion h
    · split at h
      · exact wingetPkgTypes_truthy _ _ _ h
      · exact Option.noConfusion (Except.ok.inj h)

theorem ipaPrimary_ne_empty (v : List (String × PyVal)) (s : String)
    (h : ipaPrimary v = some s) : s ≠ "" := by
  unfold ipaPrimary at h
  split at h
  · split at h
    · split at h
      · exact Option.noConfusion h
      · obtain rfl := Option.some.inj h
        assumption
    · exact Option.noConfusion h
  · exact Option.noConfusion h

theorem ipaInstall_ne_empty (v : List (String × PyVal)) (s : String)
    (h : ipaInstall v = some s) : s ≠ "" := by
  unfold ipaInstall at h
  split at h
  · split at h
    · split at h
      · obtain rfl := Option.some.inj h
        rename_i hcond
        exact hcond.1
      · exact Option.noConfusion h
    · exact Option.noConfusion h
  · exact Option.noConfusion h

theorem ipaDownloadURL_ne_empty (v : List (String × PyVal)) (s : String)
    (h : ipaDownloadURL v = some s) : s ≠ "" := by
  unfold ipaDownloadURL at h
  split at h
  · split at h
    · obtain rfl := Option.some.inj h
      rename_i hcond
      exact pyStartsWith_http_ne _ hcond.2
    · exact Option.noConfusion h
  · exact Option.noConfusion h

theorem extract_ipa_url_ne_empty (v : PyVal) (s : String)
    (h : extract_ipa_url v = some s) : s ≠ "" := by
  unfold extract_ipa_url at h
  split at h
  · split at h
    · obtain rfl := Option.some.inj h
      exact ipaPrimary_ne_empty _ _ (by assumption)
    · split at h
      · obtain rfl := Option.some.inj h
        exact ipaInstall_ne_empty _ _ (by assumption)
      · exact ipaDownloadURL_ne_empty _ _ h
  · exact Option.noConfusion h

theorem charsLeads_append (p rest : List Char) : charsLeads p (p ++ rest) = true := by
  induction p with
  | nil => rfl
  | cons c cs ih => simp [charsLeads, ih]

theorem titleAlnum_nil_of_no_alnum :
    ∀ (l : List Char), (∀ c ∈ l, c.isAlphanum = false) →
      ∀ b, (pyTitleAux b l).filter Char.isAlphanum = [] := by
  intro l
  induction l with
  | nil => intro _ b; rfl
  | cons c cs ih =>
    intro h b
    have hc : c.isAlphanum = false := h c (List.mem_cons_self c cs)
    have hca : c.isAlpha = false := by
      cases hx : c.isAlpha
      · rfl
      · exfalso
        have hx2 : c.isAlphanum = true := by simp [Char.isAlphanum, hx]
        rw [hc] at hx2
        exact Bool.noConfusion hx2
    simp only [pyTitleAux, hca, Bool.false_eq_true, if_false, List.filter_cons, hc]
    exact ih (fun d hd => h d (List.mem_cons_of_mem c hd)) false

/-!
## Claim theorems
-/

/-- Claim C1, counterexample: the spec's reference values for the failure
cases are wrong on the code.  `version_to_code` maps the empty string and
`"garbage"` to 0, not to the claimed sentinel 1: both clean to an empty
component list, and an empty component is parsed as 0 by
`int(parts[i]) if parts[i] else 0`; the `except: return 1` branch is
unreachable for string inputs. -/
theorem C1_counterexample_sentinel :
    version_to_code "" = 0 ∧ version_to_code "garbage" = 0
    ∧ version_to_code "" ≠ 1 ∧ version_to_code "garbage" ≠ 1 := by
  refine ⟨by decide, by decide, by decide, by decide⟩

/-- Claim C1 (amended): `version_to_code` is a total function on version
strings returning a non-negative integer, with `version_to_code "1.2.3" =
10203` and `version_to_code "v2" = 20000`; but on a parse miss such as the
empty string or `"garbage"` it returns 0, not the sentinel 1 (which is
produced only by the unreachable exception handler). -/
theorem C1_amended_version_code_values :
    version_to_code "1.2.3" = 10203 ∧ version_to_code "v2" = 20000
    ∧ version_to_code "" = 0 ∧ version_to_code "garbage" = 0
    ∧ ∀ s : String, 0 ≤ version_to_code s :=
  ⟨by decide, by decide, by decide, by decide, fun _ => Nat.zero_le _⟩

/-- Claim C8, counterexample: the derived version code is not monotonic in
the lexicographic order of the parsed (major, minor, patch) components: the
components of "0.0.200" are lexicographically below those of "0.1.0", yet
its code 200 is not below the code 100. -/
theorem C8_counterexample_patch_overflow :
    versionComponents "0.0.200" = (0, 0, 200) ∧ versionComponents "0.1.0" = (0, 1, 0)
    ∧ version_to_code "0.0.200" = 200 ∧ version_to_code "0.1.0" = 100
    ∧ ¬ version_to_code "0.0.200" < version_to_code "0.1.0" := by
  refine ⟨by decide, by decide, by decide, by decide, by decide⟩

/-- Claim C8 (amended): the derived code is strictly monotonic in the
lexicographic (major, minor, patch) order whenever the smaller version's
minor and patch components are below 100 (the packing radix); without that
bound monotonicity fails. -/
theorem C8_amended_monotone_bounded (a b : String)
    (hm : (versionComponents a).2.1 < 100) (hp : (versionComponents a).2.2 < 100)
    (hlex : (versionComponents a).1 < (versionComponents b).1
      ∨ ((versionComponents a).1 = (versionComponents b).1
          ∧ (versionComponents a).2.1 < (versionComponents b).2.1)
      ∨ ((versionComponents a).1 = (versionComponents b).1
          ∧ (versionComponents a).2.1 = (versionComponents b).2.1
          ∧ (versionComponents a).2.2 < (versionComponents b).2.2)) :
    version_to_code a < version_to_code b := by
  rw [version_to_code_eq_components a, version_to_code_eq_components b]
  exact packLt hm hp hlex

/-- Witness for C8: the amended monotonicity at "1.2.3" < "1.2.4". -/
theorem C8_witness_monotone : version_to_code "1.2.3" < version_to_code "1.2.4" :=
  C8_amended_monotone_bounded "1.2.3" "1.2.4" (by decide) (by decide) (by decide)

/-- Claim C5: for each of the two cited standalone builders, the process
exit code is 0 exactly when at least one application was successfully
written (partial success exits 0, zero successes exit 1), and the exit
code is always 0 or 1. -/
theorem C5_exit_code_iff_written (outcomes : List Bool) :
    (fdroid_main_exit_code outcomes = 0 ↔ 0 < outcomes.count true)
    ∧ (homebrew_main_exit_code outcomes = 0 ↔ 0 < outcomes.count true)
    ∧ (fdroid_main_exit_code outcomes = 0 ∨ fdroid_main_exit_code outcomes = 1)
    ∧ (homebrew_main_exit_code outcomes = 0 ∨ homebrew_main_exit_code outcomes = 1) := by
  have hf : fdroid_main_exit_code outcomes
      = (if outcomes.isEmpty then 1
         else if outcomes.count true = 0 then 1
         else if outcomes.count false > 0 then 0 else 0) := rfl
  have hh : homebrew_main_exit_code outcomes
      = (if outcomes.isEmpty then 1
         else if outcomes.count true = 0 then 1
         else if outcomes.count false > 0 then 0 else 0) := rfl
  rw [hf, hh]
  rcases outcomes with _ | ⟨b, t⟩
  · simp
  · simp only [List.isEmpty_cons, Bool.false_eq_true, if_false]
    by_cases hg : (b :: t).count true = 0
    · simp [hg]
    · have hpos : 0 < (b :: t).count true := Nat.pos_of_ne_zero hg
      simp [hg, hpos]

/-- Claim C3, counterexample: on a name that strips to the empty string the
sanitizers do not prepend the fallback prefix:
`sanitize_class_name` (build_homebrew_tap.py) raises IndexError, and
`sanitize_name` (build.py) returns the empty string unchanged, so the
claimed "total, prepend a prefix on empty" contract fails at "!!!". -/
theorem C3_counterexample_empty_strip :
    sanitize_class_name "!!!" = Except.error PyErr.indexError
    ∧ sanitize_name "!!!" "class" = "" := ⟨rfl, rfl⟩

/-- Claim C3 (amended): the class-style sanitizer title-cases the input and
strips every character outside [A-Za-z0-9]; when the stripped result is
non-empty and starts with a non-letter it prepends the literal prefix
"App", so a non-empty result always starts with a letter; but on a name
that strips to the empty string, build.py's `sanitize_name` returns the
empty string (no prefix) and build_homebrew_tap.py's `sanitize_class_name`
raises IndexError, and on non-empty stripped input the two functions
agree. -/
theorem C3_amended_sanitize_class (name : String) :
    sanitize_class_name name =
      (if titleAlnum name = [] then Except.error PyErr.indexError
       else Except.ok (sanitize_name name "class"))
    ∧ (sanitize_name name "class" = "" ↔ titleAlnum name = [])
    ∧ ((sanitize_name name "class").data.headD 'A').isAlpha = true := by
  rw [sanitize_name_class_eq, sanitize_class_name_eq]
  cases h : titleAlnum name with
  | nil =>
    exact ⟨by simp, by simp, by decide⟩
  | cons c cs =>
    dsimp only
    refine ⟨by simp, ?_, ?_⟩
    · constructor
      · intro heq
        by_cases hc : c.isAlpha
        · rw [if_pos hc] at heq
          exact absurd heq (mk_ne_empty c cs)
        · rw [if_neg hc] at heq
          exact absurd heq (mk_ne_empty _ _)
      · intro heq
        exact absurd heq (List.cons_ne_nil c cs)
    · by_cases hc : c.isAlpha
      · rw [if_pos hc]
        exact hc
      · rw [if_neg hc]
        rfl

/-- Claim C2, code evaluation at the failing input: in the Winget batch
loop, an application whose versions list has a non-mapping first element
(here the string "1.0") raises AttributeError from
`latest_version.get('platforms', [])`, which runs before the `try` block of
`generate_manifests` and is caught nowhere in `main`: the run aborts and
the remaining applications are never processed (first conjunct).  By
contrast a failure raised inside the `try` block (here: an application
whose latest version has no Windows download, raising ValueError) is caught
and recorded, and the loop continues: three applications yield the counts
(2 generated, 1 failed) (second conjunct). -/
theorem C2_batch_abort_on_malformed_version :
    winget_main_loop
      [(PyVal.pyDict [("slug", PyVal.pyStr "a"), ("name", PyVal.pyStr "App One")],
        [PyVal.pyDict [("platforms", PyVal.pyList [PyVal.pyStr "Windows"]),
          ("version", PyVal.pyStr "1.0"),
          ("downloads", PyVal.pyDict [("Windows", PyVal.pyDict [("exe", PyVal.pyStr "https://x/a.exe")])])]]),
       (PyVal.pyDict [("slug", PyVal.pyStr "b")], [PyVal.pyStr "1.0"]),
       (PyVal.pyDict [("slug", PyVal.pyStr "c"), ("name", PyVal.pyStr "App C")],
        [PyVal.pyDict [("platforms", PyVal.pyList [PyVal.pyStr "Windows"]),
          ("version", PyVal.pyStr "1.0"),
          ("downloads", PyVal.pyDict [("Windows", PyVal.pyDict [("exe", PyVal.pyStr "https://x/c.exe")])])]])]
      0 0 = Except.error PyErr.attributeError
    ∧ winget_main_loop
      [(PyVal.pyDict [("slug", PyVal.pyStr "a"), ("name", PyVal.pyStr "App One")],
        [PyVal.pyDict [("platforms", PyVal.pyList [PyVal.pyStr "Windows"]),
          ("version", PyVal.pyStr "1.0"),
          ("downloads", PyVal.pyDict [("Windows", PyVal.pyDict [("exe", PyVal.pyStr "https://x/a.exe")])])]]),
       (PyVal.pyDict [("slug", PyVal.pyStr "b"), ("name", PyVal.pyStr "App B")],
        [PyVal.pyDict [("platforms", PyVal.pyList [PyVal.pyStr "Windows"]),
          ("version", PyVal.pyStr "1.0")]]),
       (PyVal.pyDict [("slug", PyVal.pyStr "c"), ("name", PyVal.pyStr "App C")],
        [PyVal.pyDict [("platforms", PyVal.pyList [PyVal.pyStr "Windows"]),
          ("version", PyVal.pyStr "1.0"),
          ("downloads", PyVal.pyDict [("Windows", PyVal.pyDict [("exe", PyVal.pyStr "https://x/c.exe")])])]])]
      0 0 = Except.ok (2, 1) := ⟨rfl, rfl⟩

/-- Claim C4, counterexample: `get_android_download_url`
(build_fdroid_repo.py) does not return a direct string bound at
`downloads["Android"]`.  On the claim's own example value
`"https://x/app.apk"` the membership test `'apk' in android_downloads`
is a substring test that succeeds, and `android_downloads['apk']` then
raises TypeError instead of returning the string. -/
theorem C4_counterexample_fdroid_raises :
    get_android_download_url
      (PyVal.pyDict [("downloads", PyVal.pyDict [("Android", PyVal.pyStr "https://x/app.apk")])])
      = Except.error PyErr.typeError
    ∧ (Except.error PyErr.typeError : Except PyErr (Option PyVal))
      ≠ Except.ok (some (PyVal.pyStr "https://x/app.apk")) := ⟨rfl, by simp⟩

/-- Claim C4 (amended): for a Version whose downloads mapping binds the
mobile platform key directly to a non-empty, whitespace-free string, the
resolvers in build.py accept the string as their first probe and return it
exactly: `extract_apk_url` for Android and `extract_ipa_url` for iOS.
`get_android_download_url` in build_fdroid_repo.py however does not accept
a direct string: it raises TypeError when the string contains "apk" as a
substring and signals absence otherwise. -/
theorem C4_amended_direct_string_probe (dls vrest : List (String × PyVal)) (s : String)
    (hs : s ≠ "") (ht : pyStrip s = s) :
    extract_apk_url
      (PyVal.pyDict (("downloads", PyVal.pyDict (("Android", PyVal.pyStr s) :: dls)) :: vrest))
      = some (PyVal.pyStr s)
    ∧ extract_ipa_url
      (PyVal.pyDict (("downloads", PyVal.pyDict (("iOS", PyVal.pyStr s) :: dls)) :: vrest))
      = some s
    ∧ get_android_download_url
      (PyVal.pyDict (("downloads", PyVal.pyDict (("Android", PyVal.pyStr s) :: dls)) :: vrest))
      = (if pyStrContains s "apk" = true then Except.error PyErr.typeError else Except.ok none) := by
  refine ⟨?_, ?_, ?_⟩
  · simp [extract_apk_url, apkFromDownloads, pyLookup, ht, hs]
  · simp [extract_ipa_url, ipaPrimary, pyLookup, ht, hs]
  · have htr : (PyVal.pyStr s).truthy = true := truthy_pyStr_of_ne hs
    by_cases hc : pyStrContains s "apk" = true
    · simp [get_android_download_url, pyGet, pyGetItem, pyIn, pyLookup, htr, hc]
    · simp [get_android_download_url, pyGet, pyGetItem, pyIn, pyLookup, htr, hc]

/-- Witness for C4 at the claim's reference input. -/
theorem C4_witness_direct_string :
    extract_apk_url
      (PyVal.pyDict [("downloads", PyVal.pyDict [("Android", PyVal.pyStr "https://x/app.apk")])])
      = some (PyVal.pyStr "https://x/app.apk")
    ∧ ("https://x/app.apk" : String) ≠ "" :=
  ⟨(C4_amended_direct_string_probe [] [] "https://x/app.apk" (by decide) (by decide)).1,
    by decide⟩

/-- Claim C6, counterexample: a resolver probe can accept a value that is
neither a non-empty string nor absence.  When `downloads["macOS"]` binds
`universal` to a non-empty nested mapping, the truthiness test accepts it
and the Homebrew resolver returns that mapping, so "the resolver either
returns a non-empty string or signals absence" fails. -/
theorem C6_counterexample_nonstring_return :
    hb_get_download_url_for_platform
      (PyVal.pyDict [("downloads", PyVal.pyDict [("macOS",
        PyVal.pyDict [("universal", PyVal.pyDict [("x86_64", PyVal.pyStr "https://x/u")])])])])
      "macOS"
      = Except.ok (some (PyVal.pyDict [("x86_64", PyVal.pyStr "https://x/u")]))
    ∧ resolverResultOk
      (hb_get_download_url_for_platform
        (PyVal.pyDict [("downloads", PyVal.pyDict [("macOS",
          PyVal.pyDict [("universal", PyVal.pyDict [("x86_64", PyVal.pyStr "https://x/u")])])])])
        "macOS") = false := ⟨rfl, rfl⟩

/-- Claim C6 (amended): no probe of the cited resolvers ever returns an
empty string — a present-but-empty string is rejected by the same
truthiness or scheme-marker test that rejects an absent key — so whenever a
resolver returns a string it is non-empty.  (The resolvers may however also
return a non-string value, or raise, on adversarially shaped download
trees.) -/
theorem C6_amended_no_empty_string :
    (∀ (v : PyVal) (p : String) (s : String),
      hb_get_download_url_for_platform v p = Except.ok (some (PyVal.pyStr s)) → s ≠ "")
    ∧ (∀ (v : PyVal) (p : String) (s : String),
      build_get_download_url_for_platform v p = Except.ok (some (PyVal.pyStr s)) → s ≠ "")
    ∧ (∀ (v : PyVal) (s : String),
      get_windows_download_url v = Except.ok (some (PyVal.pyStr s)) → s ≠ "")
    ∧ (∀ (v : PyVal) (s : String), extract_ipa_url v = some s → s ≠ "") := by
  refine ⟨?_, ?_, ?_, ?_⟩
  · intro v p s h
    have ht := hb_resolver_truthy v p _ h
    simpa [PyVal.truthy] using ht
  · intro v p s h
    have ht := build_resolver_truthy v p _ h
    simpa [PyVal.truthy] using ht
  · intro v s h
    have ht := winget_resolver_truthy v _ h
    simpa [PyVal.truthy] using ht
  · intro v s h
    exact extract_ipa_url_ne_empty v s h

/-- Witness for C6: the amended statement applied to one concrete resolver
run per conjunct. -/
theorem C6_witness_no_empty_string :
    ("https://x/u" : String) ≠ "" ∧ ("https://y/b.appimage" : String) ≠ ""
    ∧ ("https://x/s.exe" : String) ≠ "" ∧ ("https://x/app.ipa" : String) ≠ "" :=
  ⟨C6_amended_no_empty_string.1
      (PyVal.pyDict [("downloads", PyVal.pyDict [("macOS",
        PyVal.pyDict [("universal", PyVal.pyStr "https://x/u")])])]) "macOS" _ rfl,
   C6_amended_no_empty_string.2.1
      (PyVal.pyDict [("downloads", PyVal.pyDict [("Linux",
        PyVal.pyDict [("appimage", PyVal.pyStr "https://y/b.appimage")])])]) "Linux" _ rfl,
   C6_amended_no_empty_string.2.2.1
      (PyVal.pyDict [("downloads", PyVal.pyDict [("Windows",
        PyVal.pyDict [("exe", PyVal.pyStr "https://x/s.exe")])])]) _ rfl,
   C6_amended_no_empty_string.2.2.2
      (PyVal.pyDict [("downloads", PyVal.pyDict [("iOS", PyVal.pyStr "https://x/app.ipa")])])
      _ rfl⟩

/-- Claim C7: when `downloads["macOS"]` is a mapping with truthy entries at
both `universal` and `arm64`, both Homebrew resolvers return the
`universal` entry: universal is probed first. -/
theorem C7_macos_universal_first (v dls pd : List (String × PyVal)) (u a : PyVal)
    (hd : pyLookup v "downloads" = some (PyVal.pyDict dls))
    (hm : pyLookup dls "macOS" = some (PyVal.pyDict pd))
    (hu : pyLookup pd "universal" = some u) (hut : u.truthy = true)
    (ha : pyLookup pd "arm64" = some a) (hat : a.truthy = true) :
    hb_get_download_url_for_platform (PyVal.pyDict v) "macOS" = Except.ok (some u)
    ∧ build_get_download_url_for_platform (PyVal.pyDict v) "macOS" = Except.ok (some u) := by
  have hpd : (PyVal.pyDict pd).truthy = true := by
    cases pd with
    | nil => simp [pyLookup] at hu
    | cons e tl => simp [PyVal.truthy]
  have hprobe : probeArchList (PyVal.pyDict pd) ["universal", "arm64", "x86_64"]
      = Except.ok (some u) := by
    simp [probeArchList, pyIn, pyGetItem, hu, hut]
  constructor
  · simp [hb_get_download_url_for_platform, pyGet, hd, hm, hpd, hprobe]
  · simp [build_get_download_url_for_platform, pyGet, hd, hm, hpd, hprobe]

/-- Witness for C7 at the claim's reference value: downloads.macOS =
arm64 https x a, universal https x u resolves to the universal URL. -/
theorem C7_witness_macos_universal :
    hb_get_download_url_for_platform
      (PyVal.pyDict [("downloads", PyVal.pyDict [("macOS", PyVal.pyDict
        [("arm64", PyVal.pyStr "https://x/a"), ("universal", PyVal.pyStr "https://x/u")])])])
      "macOS" = Except.ok (some (PyVal.pyStr "https://x/u"))
    ∧ build_get_download_url_for_platform
      (PyVal.pyDict [("downloads", PyVal.pyDict [("macOS", PyVal.pyDict
        [("arm64", PyVal.pyStr "https://x/a"), ("universal", PyVal.pyStr "https://x/u")])])])
      "macOS" = Except.ok (some (PyVal.pyStr "https://x/u")) :=
  C7_macos_universal_first
    [("downloads", PyVal.pyDict [("macOS", PyVal.pyDict
      [("arm64", PyVal.pyStr "https://x/a"), ("universal", PyVal.pyStr "https://x/u")])])]
    [("macOS", PyVal.pyDict
      [("arm64", PyVal.pyStr "https://x/a"), ("universal", PyVal.pyStr "https://x/u")])]
    [("arm64", PyVal.pyStr "https://x/a"), ("universal", PyVal.pyStr "https://x/u")]
    (PyVal.pyStr "https://x/u") (PyVal.pyStr "https://x/a")
    rfl rfl rfl (by decide) rfl (by decide)

/-- Claim C10: every Winget package identifier built with the default
publisher starts with the literal "OpenLyst." and contains only characters
in [A-Za-z0-9.]; a name with no alphanumeric characters yields the
identifier "OpenLyst." with an empty name part, and the manifest directory
computation still splits it into publisher "OpenLyst" and an empty
package-name component. -/
theorem C10_winget_package_id (name : String) :
    pyStartsWith (sanitize_package_id name "OpenLyst") "OpenLyst." = true
    ∧ (sanitize_package_id name "OpenLyst").data.all (fun c => c.isAlphanum || c == '.') = true
    ∧ (name.data.all (fun c => !c.isAlphanum) = true →
        sanitize_package_id name "OpenLyst" = "OpenLyst."
        ∧ manifest_dir_parts (sanitize_package_id name "OpenLyst") = ("OpenLyst", "")) := by
  have hid : sanitize_package_id name "OpenLyst"
      = String.mk (("OpenLyst" : String).data.filter Char.isAlphanum
          ++ '.' :: titleAlnum name) := rfl
  have hpub : ("OpenLyst" : String).data.filter Char.isAlphanum = "OpenLyst".data := by decide
  refine ⟨?_, ?_, ?_⟩
  · rw [pyStartsWith, hid, hpub]
    have hdot : ("OpenLyst." : String).data = "OpenLyst".data ++ ['.'] := by decide
    have hcons : ('.' :: titleAlnum name) = ['.'] ++ titleAlnum name := rfl
    rw [hdot, hcons, ← List.append_assoc]
    exact charsLeads_append _ _
  · rw [hid, hpub]
    simp only [List.all_append, List.all_cons, Bool.and_eq_true]
    refine ⟨by decide, by decide, ?_⟩
    rw [List.all_eq_true]
    intro c hc
    have hmem : c.isAlphanum = true := List.of_mem_filter hc
    simp [hmem]
  · intro hempty
    have hclean : titleAlnum name = [] := by
      apply titleAlnum_nil_of_no_alnum
      intro c hc
      have := (List.all_eq_true.mp hempty) c hc
      simpa using this
    have hid2 : sanitize_package_id name "OpenLyst"
        = String.mk (("OpenLyst" : String).data.filter Char.isAlphanum ++ ['.']) := by
      rw [hid, hclean]
    constructor
    · rw [hid2]
      decide
    · rw [hid2]
      decide

/-- Witness for C10: a name with no alphanumeric characters. -/
theorem C10_witness_package_id :
    sanitize_package_id "???" "OpenLyst" = "OpenLyst."
    ∧ manifest_dir_parts (sanitize_package_id "???" "OpenLyst") = ("OpenLyst", "") :=
  (C10_winget_package_id "???").2.2 (by decide)

/-- Claim C9: for every input value the screenshot processor returns at
most ten entries; a non-list input yields the empty list, and a list input
yields, in order, exactly the entries that are strings or dicts with an
`imageURL` key (taking that key's value), truncated to the first ten. -/
theorem C9_screenshots_shape (x : PyVal) :
    (process_screenshots x).length ≤ 10
    ∧ process_screenshots x =
        (match x with
         | PyVal.pyList xs => (xs.filterMap keepShot).take 10
         | _ => []) := by
  cases x with
  | pyList xs =>
    refine ⟨?_, ?_⟩
    · simp [process_screenshots, List.length_take]
    · simp [process_screenshots, processLoop_eq_filterMap]
  | pyNone => exact ⟨by simp [process_screenshots], rfl⟩
  | pyBool b => exact ⟨by simp [process_screenshots], rfl⟩
  | pyInt n => exact ⟨by simp [process_screenshots], rfl⟩
  | pyStr s => exact ⟨by simp [process_screenshots], rfl⟩
  | pyDict d => exact ⟨by simp [process_screenshots], rfl⟩

end Openlyst
